import Mathlib

/-!
Verification development for the AIMentorProject tutoring backend.

The definitions below are a shallow embedding of the orchestration core:
  - backend/app/services/agentic_rag.py   (correction-loop engine)
  - backend/app/services/pedagogical_graph.py (phase router and phase nodes)
  - backend/app/models/pedagogical_state.py  (tutoring state model)
  - backend/app/services/state_manager.py  (conversation state store)

External services (the LLM completion endpoint and the vector-store
retrieval engine) are modelled as oracles ("ports"): functions from a call
index and a prompt/query to either a successful payload or an error string
(an error models a raised exception whose text is the string).

Python string operations are modelled at the code-point level (a Python
str is a sequence of code points, as is the character list underlying a
Lean String); the helpers below are structurally recursive so that the
kernel can evaluate them on concrete inputs.
-/

namespace AIMentor

/-- The apostrophe character as a one-character string. -/
def apos : String := String.mk [Char.ofNat 39]

/-- Code-point lowercasing, modelling Python str.lower on ASCII text. -/
def toLowerS (s : String) : String := ⟨s.data.map Char.toLower⟩

/-- Code-point uppercasing, modelling Python str.upper on ASCII text. -/
def toUpperS (s : String) : String := ⟨s.data.map Char.toUpper⟩

/-- Strip leading and trailing whitespace, modelling Python str.strip(). -/
def trimS (s : String) : String :=
  ⟨((s.data.dropWhile Char.isWhitespace).reverse.dropWhile Char.isWhitespace).reverse⟩

/-- Does the character list contain pat as a contiguous run? -/
def infixOfL (pat : List Char) : List Char → Bool
  | [] => pat.isEmpty
  | c :: t => pat.isPrefixOf (c :: t) || infixOfL pat t

/-- Substring containment, modelling the Python expression pat in s. -/
def containsS (s pat : String) : Bool := infixOfL pat.data s.data

/-- First n code points, modelling the Python slice s[:n]. -/
def takeS (s : String) (n : Nat) : String := ⟨s.data.take n⟩

/-- Number of code points, modelling Python len(s). -/
def lenS (s : String) : Nat := s.data.length

/-- Join a list of strings with a separator, modelling Python sep.join(xs). -/
def joinSep (sep : String) : List String → String
  | [] => ""
  | [x] => x
  | x :: y :: xs => x ++ sep ++ joinSep sep (y :: xs)

/-! ## Correction-Loop Engine (backend/app/services/agentic_rag.py) -/

/-- Relevance scores are Python floats; they are carried through the state
but never computed with, so the type is inert in this development. -/
abbrev Score := Float

/-- Document metadata dictionaries are carried opaquely. -/
abbrev Meta := String

/-- The AgentState TypedDict from backend/app/services/agent_state.py.
The messages field (conversation history) is read and written by no node
of the workflow and is omitted. retry_count and max_retries are Python
ints that the workflow never drives below zero, embedded as Nat. -/
structure AgentState where
  question : String
  rewritten_question : Option String
  documents : List String
  document_scores : List Score
  document_metadata : List Meta
  generation : String
  retry_count : Nat
  max_retries : Nat
  relevance_decision : Option String
  workflow_path : List String
  slm_prompt : Option String

/-- The external ports of the engine. Call sites pass the current call
index so that successive calls with the same prompt may behave
differently (the completion service is a nondeterministic oracle).
An error result models a raised exception carrying the given message. -/
structure Ports where
  retrieveDocs : Nat → String → Except String (List (String × Score × Meta))
  complete : Nat → String → Except String String
  streamComplete : String → Except String (List String)

/-- Workflow-run state: the agent state plus the number of retrieval and
completion calls made so far (used to index the oracles). -/
structure RunState where
  agent : AgentState
  retrievalCalls : Nat
  llmCalls : Nat

/-- The expression state.get("rewritten_question") or state["question"]
(agentic_rag.py lines 122, 162, 249): Python or falls back both when the
rewritten question is None and when it is the empty string. -/
def questionOf (a : AgentState) : String :=
  match a.rewritten_question with
  | some r => if r = "" then a.question else r
  | none => a.question

/-- The grading prompt of _grade_documents (agentic_rag.py lines 174-189). -/
def mkGradingPrompt (question : String) (documents : List String) : String :=
  let docs_text := joinSep "\n\n" (documents.enum.map fun p =>
    "Document " ++ toString (p.1 + 1) ++ ":\n" ++ takeS p.2 300 ++ "...")
  "You are a grading assistant. Your task is to determine if the retrieved documents are relevant to answer the user" ++ apos ++ "s question.\n\nQuestion: " ++ question ++ "\n\nRetrieved Documents:\n" ++ docs_text ++ "\n\nAre these documents relevant to answering the question? Respond with ONLY \"yes\" or \"no\".\n\nIf the documents contain information that could help answer the question, respond \"yes\".\nIf the documents are off-topic or unhelpful, respond \"no\".\n\nResponse:"

/-- The reformulation prompt of _rewrite_query (agentic_rag.py lines
220-226); it is built from the original question only. -/
def mkRewritePrompt (original_question : String) : String :=
  "You are a query reformulation assistant. The original question did not retrieve relevant documents.\n\nOriginal question: " ++ original_question ++ "\n\nYour task: Rewrite this question to improve retrieval results. Make it more specific, add context, or rephrase for clarity.\n\nRewritten question:"

/-- The prompt _rewrite_query sends to the completion port for a given
state: mkRewritePrompt applied to the original question field
(agentic_rag.py line 214 reads state["question"]). -/
def rewritePromptOf (a : AgentState) : String := mkRewritePrompt a.question

/-- The generation prompt of _generate (agentic_rag.py lines 256-273). -/
def mkGenerationPrompt (question : String) (documents : List String) : String :=
  let context := joinSep "\n\n" (documents.enum.map fun p =>
    "Source " ++ toString (p.1 + 1) ++ ":\n" ++ p.2)
  "You are an expert Computer Science mentor helping students learn.\n\nContext Documents:\n" ++ context ++ "\n\nQuestion: " ++ question ++ "\n\nInstructions:\n- Provide a clear, concise answer based STRICTLY on the context above\n- If context is insufficient, acknowledge it honestly\n- Cite sources by mentioning \"Source 1\", \"Source 2\", etc.\n- Use analogies to make concepts accessible\n- Be encouraging and supportive\n\nAnswer:"

/-- AgenticRAGService._retrieve (agentic_rag.py lines 117-154): queries
the retrieval port with the rewritten-or-original question, stores the
returned documents, scores and metadata; on failure stores empty lists. -/
def retrieveNode (P : Ports) (s : RunState) : RunState :=
  let question := questionOf s.agent
  let a := { s.agent with workflow_path := s.agent.workflow_path ++ ["retrieve"] }
  match P.retrieveDocs s.retrievalCalls question with
  | .ok nodes =>
      { agent := { a with documents := nodes.map (fun n => n.1),
                          document_scores := nodes.map (fun n => n.2.1),
                          document_metadata := nodes.map (fun n => n.2.2) },
        retrievalCalls := s.retrievalCalls + 1, llmCalls := s.llmCalls }
  | .error _ =>
      { agent := { a with documents := [], document_scores := [], document_metadata := [] },
        retrievalCalls := s.retrievalCalls + 1, llmCalls := s.llmCalls }

/-- AgenticRAGService._grade_documents (agentic_rag.py lines 156-208):
with no documents the decision is "no" and the completion port is not
called; otherwise the completion response text, stripped and lowercased,
is searched for the substring "yes"; on completion failure the decision
defaults to "yes" (fail safe). -/
def gradeNode (P : Ports) (s : RunState) : RunState :=
  let question := questionOf s.agent
  let a := { s.agent with workflow_path := s.agent.workflow_path ++ ["grade"] }
  if s.agent.documents.isEmpty then
    { agent := { a with relevance_decision := some "no" },
      retrievalCalls := s.retrievalCalls, llmCalls := s.llmCalls }
  else
    match P.complete s.llmCalls (mkGradingPrompt question s.agent.documents) with
    | .ok txt =>
        let decision := toLowerS (trimS txt)
        if containsS decision "yes" then
          { agent := { a with relevance_decision := some "yes" },
            retrievalCalls := s.retrievalCalls, llmCalls := s.llmCalls + 1 }
        else
          { agent := { a with relevance_decision := some "no" },
            retrievalCalls := s.retrievalCalls, llmCalls := s.llmCalls + 1 }
    | .error _ =>
        { agent := { a with relevance_decision := some "yes" },
          retrievalCalls := s.retrievalCalls, llmCalls := s.llmCalls + 1 }

/-- AgenticRAGService._rewrite_query (agentic_rag.py lines 210-243): on
completion success sets rewritten_question to the stripped response and
increments retry_count; on completion failure leaves both unchanged.
The "rewrite" path entry is appended in either case. -/
def rewriteNode (P : Ports) (s : RunState) : RunState :=
  let a := { s.agent with workflow_path := s.agent.workflow_path ++ ["rewrite"] }
  match P.complete s.llmCalls (rewritePromptOf s.agent) with
  | .ok txt =>
      { agent := { a with rewritten_question := some (trimS txt),
                          retry_count := a.retry_count + 1 },
        retrievalCalls := s.retrievalCalls, llmCalls := s.llmCalls + 1 }
  | .error _ =>
      { agent := a, retrievalCalls := s.retrievalCalls, llmCalls := s.llmCalls + 1 }

/-- AgenticRAGService._generate (agentic_rag.py lines 245-291): records
the exact prompt in slm_prompt, then on success stores the stripped
completion text, and on failure stores an apology string containing the
error text (the prompt is still recorded). -/
def generateNode (P : Ports) (s : RunState) : RunState :=
  let question := questionOf s.agent
  let prompt := mkGenerationPrompt question s.agent.documents
  let a := { s.agent with workflow_path := s.agent.workflow_path ++ ["generate"] }
  match P.complete s.llmCalls prompt with
  | .ok txt =>
      { agent := { a with slm_prompt := some prompt, generation := trimS txt },
        retrievalCalls := s.retrievalCalls, llmCalls := s.llmCalls + 1 }
  | .error e =>
      { agent := { a with slm_prompt := some prompt,
                          generation := "I apologize, but I encountered an error generating the answer: " ++ e },
        retrievalCalls := s.retrievalCalls, llmCalls := s.llmCalls + 1 }

/-- AgenticRAGService._decide_after_grading (agentic_rag.py lines
295-319): "generate" when the decision is "yes" or retries are
exhausted, else "rewrite". The state always carries the
relevance_decision key, so the Python dict-get default is never taken;
a decision of None compares unequal to "yes". -/
def decideAfterGrading (a : AgentState) : String :=
  if a.relevance_decision = some "yes" then "generate"
  else if a.max_retries ≤ a.retry_count then "generate"
  else "rewrite"

/-- The four graph nodes of _build_graph (agentic_rag.py lines 81-113). -/
inductive GNode where
  | retrieve
  | grade_documents
  | rewrite_query
  | generate
deriving DecidableEq, Repr

/-- Graph node names as registered with add_node. -/
def nodeName : GNode → String
  | .retrieve => "retrieve"
  | .grade_documents => "grade_documents"
  | .rewrite_query => "rewrite_query"
  | .generate => "generate"

/-- One node execution plus the edge taken afterwards, following the
edges of _build_graph: retrieve to grade_documents, the conditional edge
after grading (mapping "generate" to generate and "rewrite" to
rewrite_query), rewrite_query back to retrieve, and generate to END. -/
def stepNode (P : Ports) : GNode → RunState → RunState × Option GNode
  | .retrieve, s => (retrieveNode P s, some .grade_documents)
  | .grade_documents, s =>
      let s1 := gradeNode P s
      if decideAfterGrading s1.agent = "generate" then (s1, some .generate)
      else (s1, some .rewrite_query)
  | .rewrite_query, s => (rewriteNode P s, some .retrieve)
  | .generate, s => (generateNode P s, none)

/-- Fuel-indexed graph execution from a given node. Returns the final
state, whether the run reached END within the given fuel, and the list
of nodes executed, in order. -/
def runGraph (P : Ports) : Nat → GNode → RunState → RunState × Bool × List GNode
  | 0, _, s => (s, false, [])
  | fuel + 1, n, s =>
      let r := stepNode P n s
      match r.2 with
      | none => (r.1, true, [n])
      | some n1 =>
          let rest := runGraph P fuel n1 r.1
          (rest.1, rest.2.1, n :: rest.2.2)

/-- The initial state built by query and query_stream (agentic_rag.py
lines 339-351 and 412-424). -/
def initAgentState (question : String) (max_retries : Nat) : AgentState :=
  { question := question, rewritten_question := none, documents := [],
    document_scores := [], document_metadata := [], generation := "",
    retry_count := 0, max_retries := max_retries,
    relevance_decision := none, workflow_path := [], slm_prompt := none }

/-- Initial run state: no port calls made yet. -/
def initRunState (question : String) (max_retries : Nat) : RunState :=
  { agent := initAgentState question max_retries, retrievalCalls := 0, llmCalls := 0 }

/-- Run the compiled graph from its entry point "retrieve"
(agentic_rag.py line 93). -/
def invokeGraph (P : Ports) (question : String) (max_retries : Nat) (fuel : Nat) :
    RunState × Bool × List GNode :=
  runGraph P fuel .retrieve (initRunState question max_retries)

/-- One displayed source entry of the query result (agentic_rag.py lines
360-367). -/
structure SourceItem where
  text : String
  score : Score
  metadata : Meta

/-- The result dictionary of query (agentic_rag.py lines 358-374). -/
structure QueryResult where
  answer : String
  sources : List SourceItem
  question : String
  num_sources : Nat
  workflow_path : String
  rewrites_used : Nat
  was_rewritten : Bool
  slm_prompt : String

/-- The sources list: documents zipped with scores and metadata, each
text truncated to 200 code points with an ellipsis when longer. -/
def mkSources (a : AgentState) : List SourceItem :=
  (a.documents.zip (a.document_scores.zip a.document_metadata)).map fun p =>
    { text := if 200 < lenS p.1 then takeS p.1 200 ++ "..." else p.1,
      score := p.2.1, metadata := p.2.2 }

/-- Assemble the result dictionary from the final state. -/
def mkResult (question : String) (a : AgentState) : QueryResult :=
  { answer := a.generation, sources := mkSources a, question := question,
    num_sources := a.documents.length,
    workflow_path := joinSep " → " a.workflow_path,
    rewrites_used := a.retry_count,
    was_rewritten := a.rewritten_question.isSome,
    slm_prompt := a.slm_prompt.getD "" }

/-- AgenticRAGService.query (agentic_rag.py lines 323-387): run the
graph on a fresh state and assemble the result. The fuel parameter makes
graph execution total; none models a run that has not reached END
within the given fuel. -/
def query (P : Ports) (question : String) (max_retries : Nat) (fuel : Nat) :
    Option QueryResult :=
  let r := invokeGraph P question max_retries fuel
  if r.2.1 then some (mkResult question r.1.agent) else none

/-- The events yielded by query_stream (agentic_rag.py lines 391-527). -/
inductive StreamEvent where
  | workflow (node : String) (message : String)
  | token (content : String)
  | complete (answer : String) (sources : List SourceItem) (question : String)
      (num_sources : Nat) (workflow_path : String) (rewrites_used : Nat)
      (was_rewritten : Bool) (slm_prompt : String)
  | error (message : String)

/-- The terminal completion event payload (agentic_rag.py lines 493-511). -/
def completeEvent (question : String) (a : AgentState) : StreamEvent :=
  .complete a.generation (mkSources a) question a.documents.length
    (joinSep " → " a.workflow_path) a.retry_count
    a.rewritten_question.isSome (a.slm_prompt.getD "")

/-- AgenticRAGService.query_stream (agentic_rag.py lines 391-527): yield
one workflow event per node executed; then, when the final state holds
documents, regenerate the answer with a streaming completion call (one
token event per fragment, the stripped concatenation replacing the
generation computed inside the graph; the local question variable is
rebound to the rewritten-or-original question), and close with the
completion event; with no documents, close with the completion event
carrying the generation from inside the graph. When the graph yielded
no event at all the final state is None and no completion event is
emitted; a streaming-completion failure yields an error event. -/
def queryStream (P : Ports) (question : String) (max_retries : Nat) (fuel : Nat) :
    List StreamEvent :=
  let r := invokeGraph P question max_retries fuel
  let visited := r.2.2
  let wfEvents := visited.map fun n =>
    StreamEvent.workflow (nodeName n) ("Running " ++ nodeName n ++ "...")
  if visited.isEmpty then wfEvents
  else
    let fs := r.1.agent
    if fs.documents.isEmpty then wfEvents ++ [completeEvent question fs]
    else
      let question1 := questionOf fs
      let prompt := mkGenerationPrompt question1 fs.documents
      let fs1 := { fs with slm_prompt := some prompt }
      match P.streamComplete prompt with
      | .ok chunks =>
          let fs2 := { fs1 with generation := trimS (joinSep "" chunks) }
          wfEvents ++ chunks.map StreamEvent.token ++ [completeEvent question1 fs2]
      | .error e => wfEvents ++ [.error ("Streaming failed: " ++ e)]

/-! ## Pedagogical state model (backend/app/models/pedagogical_state.py) -/

/-- The TutoringPhase enum (pedagogical_state.py lines 13-19). -/
inductive TutoringPhase where
  | INITIAL
  | EXPLANATION
  | IMPLEMENTATION
  | DEBUGGING
  | REFLECTION
deriving DecidableEq, Repr

/-- The string value of each enum member. -/
def TutoringPhase.value : TutoringPhase → String
  | .INITIAL => "initial"
  | .EXPLANATION => "explanation"
  | .IMPLEMENTATION => "implementation"
  | .DEBUGGING => "debugging"
  | .REFLECTION => "reflection"

/-- The PedagogicalState pydantic model (pedagogical_state.py lines
22-49) with its field defaults. -/
structure PedagogicalState where
  conversation_id : String := "default"
  current_phase : TutoringPhase := .INITIAL
  problem_statement : Option String := none
  last_user_message : Option String := none
  last_ai_response : Option String := none
  phase_history : List String := []
deriving DecidableEq, Repr

/-- PedagogicalState.transition_to_phase (pedagogical_state.py lines
62-66): appends the previous phase value and changes phase only when
the new phase differs from the current one. -/
def transition_to_phase (s : PedagogicalState) (new_phase : TutoringPhase) :
    PedagogicalState :=
  if s.current_phase ≠ new_phase then
    { s with phase_history := s.phase_history ++ [s.current_phase.value],
             current_phase := new_phase }
  else s

/-! ## Phase nodes and router (backend/app/services/pedagogical_graph.py)

Each phase node receives the pedagogical state and the user message and
returns the generation text together with the replacement state. Nodes
that call the completion port are fallible (the source does not catch
completion exceptions inside these handlers); an error result models
the exception propagating out of the handler. The completion port here
is a single-call oracle from prompt to outcome. -/

/-- A single completion call, prompt to outcome. -/
abbrev Completion := String → Except String String

/-- Wrap a string in single quotes, as the Python f-strings do. -/
def squote (s : String) : String := apos ++ s ++ apos

/-- The prompt of initial_node (pedagogical_graph.py lines 36-42). -/
def mkInitialPrompt (user_message : String) : String :=
  "A student says: " ++ squote user_message ++ "\n\nHelp them clarify their problem. Ask what they" ++ apos ++ "re trying to solve and any relevant details.\n\nBe supportive and encouraging. Ask 1-2 clarifying questions. Do NOT provide solutions.\n\nStart naturally without mentioning you are an example."

/-- Python truthiness of an optional string: None and the empty string
are falsy. -/
def truthyOptStr : Option String → Bool
  | none => false
  | some s => !(s = "")

/-- The expression pedagogical_state.problem_statement or fallback. -/
def problemOr (p : Option String) (fallback : String) : String :=
  match p with
  | some s => if s = "" then fallback else s
  | none => fallback

/-- initial_node (pedagogical_graph.py lines 26-64): calls the
completion port with the clarification prompt; infers a tentative
problem statement from the message when none exists (Python truthiness:
None or empty) and the stripped message exceeds 20 code points; appends
"initial" to the phase history unconditionally and sets the phase. -/
def initial_node (llm : Completion) (ps : PedagogicalState) (user_message : String) :
    Except String (String × PedagogicalState) :=
  (llm (mkInitialPrompt user_message)).map fun text =>
    let problem_statement :=
      if !truthyOptStr ps.problem_statement ∧ 20 < lenS (trimS user_message) then
        some (trimS user_message)
      else ps.problem_statement
    (text,
     { ps with last_user_message := some user_message,
               last_ai_response := some text,
               problem_statement := problem_statement,
               phase_history := ps.phase_history ++ ["initial"],
               current_phase := .INITIAL })

/-- The prompt of explanation_node (pedagogical_graph.py lines 77-91). -/
def mkExplanationPrompt (ps : PedagogicalState) (user_message : String) : String :=
  "You are an expert Computer Science tutor helping a student break down their problem.\n\nProblem statement: " ++ squote (problemOr ps.problem_statement user_message) ++ "\nUser" ++ apos ++ "s current message: " ++ squote user_message ++ "\n\nYour goal in this EXPLANATION phase is to:\n1. Help them create a high-level, step-by-step plan in plain English\n2. Identify key concepts they need to understand\n3. Suggest how to approach the problem systematically\n4. Break complex problems into manageable sub-problems\n\nDo NOT write code. Focus on planning and understanding.\nAsk guiding questions to help them think through the approach.\n\nRespond in a supportive tone and guide them step-by-step."

/-- explanation_node (pedagogical_graph.py lines 67-104). -/
def explanation_node (llm : Completion) (ps : PedagogicalState) (user_message : String) :
    Except String (String × PedagogicalState) :=
  (llm (mkExplanationPrompt ps user_message)).map fun text =>
    (text,
     { ps with last_user_message := some user_message,
               last_ai_response := some text,
               phase_history := ps.phase_history ++ ["explanation"],
               current_phase := .EXPLANATION })

/-- The prompt of implementation_node (pedagogical_graph.py lines 116-130). -/
def mkImplementationPrompt (ps : PedagogicalState) (user_message : String) : String :=
  "You are an expert Computer Science tutor helping a student implement their solution.\n\nProblem statement: " ++ squote (problemOr ps.problem_statement "Not specified yet") ++ "\nUser" ++ apos ++ "s current implementation step/question: " ++ squote user_message ++ "\n\nYour goal in this IMPLEMENTATION phase is to:\n1. Help them think through the specific step they" ++ apos ++ "re working on\n2. Encourage them to consider different approaches before coding\n3. Guide them through writing pseudocode or thinking about logic\n4. Help them verify their approach makes sense\n\nEncourage them to think through the approach first before writing code.\nIf they show code, focus on the logic and approach rather than syntax.\n\nRespond with guidance and questions to help them implement this specific step."

/-- implementation_node (pedagogical_graph.py lines 107-143). -/
def implementation_node (llm : Completion) (ps : PedagogicalState) (user_message : String) :
    Except String (String × PedagogicalState) :=
  (llm (mkImplementationPrompt ps user_message)).map fun text =>
    (text,
     { ps with last_user_message := some user_message,
               last_ai_response := some text,
               phase_history := ps.phase_history ++ ["implementation"],
               current_phase := .IMPLEMENTATION })

/-- The code points after the first full stop, modelling the Python
expression s.split(".", 1)[1]. -/
def afterFirstDot : List Char → List Char
  | [] => []
  | c :: t => if c = '.' then t else afterFirstDot t

/-- Leading-acknowledgment stripping of debugging_node (pedagogical_graph.py
lines 158-160). -/
def debugProblemPart (user_message : String) : String :=
  if ["yes.", "yeah.", "ok.", "okay.", "sure."].any
      (fun p => p.data.isPrefixOf (toLowerS user_message).data) then
    if containsS user_message "." then trimS ⟨afterFirstDot user_message.data⟩
    else user_message
  else user_message

/-- The template response of debugging_node (pedagogical_graph.py lines 163-167). -/
def mkDebuggingResponse (problem_part : String) : String :=
  "That sounds frustrating! Can you tell me more about what you" ++ apos ++ "re trying to do?\n\nYou mentioned: " ++ problem_part ++ "\n\nWhat does the error or issue mean? Can you show me the relevant part of your code?"

/-- debugging_node (pedagogical_graph.py lines 146-174): a template
response built without any completion call, so the handler is total. -/
def debugging_node (ps : PedagogicalState) (user_message : String) :
    String × PedagogicalState :=
  let text := mkDebuggingResponse (debugProblemPart user_message)
  (text,
   { ps with last_user_message := some user_message,
             last_ai_response := some text,
             phase_history := ps.phase_history ++ ["debugging"],
             current_phase := .DEBUGGING })

/-- The prompt of reflection_node (pedagogical_graph.py lines 187-204). -/
def mkReflectionPrompt (ps : PedagogicalState) (user_message : String) : String :=
  "You are an expert Computer Science tutor helping a student reflect on their work.\n\nProblem statement: " ++ squote (problemOr ps.problem_statement "Not specified yet") ++ "\nUser" ++ apos ++ "s latest work/achievement: " ++ squote user_message ++ "\n\nYour goal in this REFLECTION phase is to:\n1. Help them think about what they learned\n2. Consider alternative approaches or improvements\n3. Identify key takeaways from the problem\n4. Guide them to think about how this connects to other concepts\n\nAsk metacognitive questions like:\n- What was the most challenging part?\n- What would you do differently next time?\n- How does this problem connect to what you" ++ apos ++ "ve learned before?\n- What new insights did you gain?\n\nEncourage deeper thinking about their learning process."

/-- reflection_node (pedagogical_graph.py lines 177-217). -/
def reflection_node (llm : Completion) (ps : PedagogicalState) (user_message : String) :
    Except String (String × PedagogicalState) :=
  (llm (mkReflectionPrompt ps user_message)).map fun text =>
    (text,
     { ps with last_user_message := some user_message,
               last_ai_response := some text,
               phase_history := ps.phase_history ++ ["reflection"],
               current_phase := .REFLECTION })

/-- The classification prompt of route_phase (pedagogical_graph.py lines
230-248). -/
def mkRoutingPrompt (ps : PedagogicalState) (user_message : String) : String :=
  "You are an intelligent routing system for a Computer Science tutoring AI.\n\nCurrent tutoring phase: " ++ squote ps.current_phase.value ++ "\nUser" ++ apos ++ "s message: " ++ squote user_message ++ "\nProblem being worked on: " ++ squote (problemOr ps.problem_statement "Not yet established") ++ "\n\nYour task is to determine which tutoring phase should come next.\nThe available phases are: INITIAL, EXPLANATION, IMPLEMENTATION, DEBUGGING, REFLECTION.\n\nRouting rules:\n- If the user is starting a new problem or the problem statement is unclear → INITIAL\n- If the user needs help understanding or breaking down the problem → EXPLANATION\n- If the user is ready to work on implementation details or specific steps → IMPLEMENTATION\n- If the user has an error, bug, or something isn" ++ apos ++ "t working → DEBUGGING\n- If the user completed a step and should reflect or consider alternatives → REFLECTION\n\nConsider the user" ++ apos ++ "s intent and context. Choose the phase that best serves their current need.\n\nRespond with ONLY the name of the phase (INITIAL, EXPLANATION, IMPLEMENTATION, DEBUGGING, or REFLECTION)."

/-- The five valid phase labels (pedagogical_graph.py line 260). -/
def valid_phases : List String :=
  ["INITIAL", "EXPLANATION", "IMPLEMENTATION", "DEBUGGING", "REFLECTION"]

/-- Fallback rule 1 keywords (pedagogical_graph.py line 266). -/
def debugKeywords : List String :=
  ["error", "bug", "doesn" ++ apos ++ "t work", "wrong", "exception",
   "infinite loop", "loop", "stuck", "terminate"]

/-- Fallback rule 2 keywords (pedagogical_graph.py line 268). -/
def reflectionKeywords : List String :=
  ["done", "finished", "completed", "what" ++ apos ++ "s next", "works", "solved"]

/-- Fallback rule 4 keywords (pedagogical_graph.py line 274). -/
def confusionKeywords : List String :=
  ["not sure", "don" ++ apos ++ "t know", "confused", "lost", "help",
   "don" ++ apos ++ "t understand"]

/-- Fallback rule 5 keywords (pedagogical_graph.py line 276). -/
def implementationKeywords : List String :=
  ["implement", "code", "method", "function", "write"]

/-- Fallback rule 6 keywords (pedagogical_graph.py line 278). -/
def explanationKeywords : List String :=
  ["explain", "understand", "break down"]

/-- Fallback rule 7 keywords (pedagogical_graph.py line 280). -/
def newTopicKeywords : List String :=
  ["start", "new problem", "different", "another"]

/-- Does the lowercased message contain any keyword of the list? -/
def hasKeyword (user_message : String) (kws : List String) : Bool :=
  kws.any fun k => containsS (toLowerS user_message) k

/-- The attempted classifier label of route_phase (pedagogical_graph.py
lines 251-257): the stripped, uppercased completion response, or the
uppercased current phase value when the completion call raises. -/
def classifierLabel (llm : Completion) (ps : PedagogicalState) (user_message : String) :
    String :=
  match llm (mkRoutingPrompt ps user_message) with
  | .ok t => toUpperS (trimS t)
  | .error _ => toUpperS ps.current_phase.value

/-- route_phase (pedagogical_graph.py lines 220-286): when the attempted
label is one of the five valid phases it is returned; otherwise the
deterministic keyword fallback applies, in source order: debugging
keywords, completion keywords, first turn of a new conversation,
confusion keywords, implementation keywords, explanation keywords,
new-topic keywords, and finally the current phase. -/
def route_phase (llm : Completion) (ps : PedagogicalState) (user_message : String) :
    String :=
  let next_phase := classifierLabel llm ps user_message
  if next_phase ∈ valid_phases then next_phase
  else
    let current_phase := toUpperS ps.current_phase.value
    if hasKeyword user_message debugKeywords then "DEBUGGING"
    else if hasKeyword user_message reflectionKeywords then "REFLECTION"
    else if ps.problem_statement = none ∧ ps.phase_history = [] then "INITIAL"
    else if hasKeyword user_message confusionKeywords then "EXPLANATION"
    else if hasKeyword user_message implementationKeywords then "IMPLEMENTATION"
    else if hasKeyword user_message explanationKeywords then "EXPLANATION"
    else if hasKeyword user_message newTopicKeywords then "INITIAL"
    else current_phase

/-! ## Conversation state store (backend/app/services/state_manager.py)

The Python dict of states is embedded as an association list with at
most one binding per key (the store only ever inserts a key that is
absent, rewrites a present binding in place, or deletes a binding). -/

/-- Lookup in an association list, modelling dict indexing. -/
def alookup {β : Type} (l : List (String × β)) (k : String) : Option β :=
  match l with
  | [] => none
  | (k1, v) :: t => if k1 = k then some v else alookup t k

/-- Rewrite the binding of a key, or append it, modelling dict item
assignment. -/
def aset {β : Type} (l : List (String × β)) (k : String) (v : β) :
    List (String × β) :=
  match l with
  | [] => [(k, v)]
  | (k1, v1) :: t => if k1 = k then (k, v) :: t else (k1, v1) :: aset t k v

/-- Remove every binding of a key, modelling dict deletion on a store
that holds at most one binding per key. -/
def aerase {β : Type} (l : List (String × β)) (k : String) : List (String × β) :=
  l.filter fun p => !(p.1 = k)

/-- The StateManager (state_manager.py lines 12-23): a dict from
conversation id to pedagogical state. -/
structure StateManager where
  states : List (String × PedagogicalState)

/-- The fresh state created for an absent id (state_manager.py lines
36-38): every field takes its pydantic default except the id. -/
def freshPedagogicalState (conversation_id : String) : PedagogicalState :=
  { conversation_id := conversation_id }

/-- StateManager.get_or_create_state (state_manager.py lines 25-39):
create a fresh state when the id is absent, then return the stored
state, together with the updated store. -/
def StateManager.get_or_create_state (m : StateManager) (conversation_id : String) :
    PedagogicalState × StateManager :=
  match alookup m.states conversation_id with
  | some s => (s, m)
  | none =>
      let m1 : StateManager :=
        ⟨aset m.states conversation_id (freshPedagogicalState conversation_id)⟩
      (freshPedagogicalState conversation_id, m1)

/-- StateManager.get_state (state_manager.py lines 63-73): none when the
id is absent. -/
def StateManager.get_state (m : StateManager) (conversation_id : String) :
    Option PedagogicalState :=
  alookup m.states conversation_id

/-- StateManager.delete_state (state_manager.py lines 75-88): true and
the binding removed when present, false and the store unchanged when
absent. -/
def StateManager.delete_state (m : StateManager) (conversation_id : String) :
    Bool × StateManager :=
  if (alookup m.states conversation_id).isSome then
    (true, ⟨aerase m.states conversation_id⟩)
  else (false, m)

/-! ## Heap model for get_all_states (state_manager.py lines 90-97)

get_all_states returns self.states.copy(): a new dict object whose
contents equal the registry. To make the copy observable, dict objects
are placed on an explicit heap of references; the store owns one
reference, and get_all_states allocates a fresh reference holding a
copy of the contents. Caller-side mutation of the returned dict is an
update at the returned reference only. -/

/-- A dict object: the contents of a states registry. -/
abbrev StatesDict := List (String × PedagogicalState)

/-- A heap of dict objects addressed by numeric references. -/
abbrev DictHeap := List (Nat × StatesDict)

/-- Lookup a dict object on the heap. -/
def heapGet (h : DictHeap) (r : Nat) : Option StatesDict :=
  match h with
  | [] => none
  | (r1, d) :: t => if r1 = r then some d else heapGet t r

/-- Rewrite or append a heap binding. -/
def heapSet (h : DictHeap) (r : Nat) (d : StatesDict) : DictHeap :=
  match h with
  | [] => [(r, d)]
  | (r1, d1) :: t => if r1 = r then (r, d) :: t else (r1, d1) :: heapSet t r d

/-- A reference strictly larger than every allocated reference. -/
def freshRef (h : DictHeap) : Nat := (h.map fun p => p.1).foldr max 0 + 1

/-- StateManager.get_all_states in the heap model: read the dict owned
by the store at selfRef, allocate a fresh reference holding a copy of
its contents, and return that reference. -/
def get_all_states_heap (h : DictHeap) (selfRef : Nat) : Option (Nat × DictHeap) :=
  (heapGet h selfRef).map fun d =>
    let r := freshRef h
    (r, heapSet h r d)

/-- Caller-side mutation: add or replace an entry of the dict object at
a reference (dict item assignment on the returned mapping). -/
def dictInsertAt (h : DictHeap) (r : Nat) (k : String) (v : PedagogicalState) :
    DictHeap :=
  match heapGet h r with
  | some d => heapSet h r (aset d k v)
  | none => h

/-- Caller-side mutation: remove an entry of the dict object at a
reference (dict deletion on the returned mapping). -/
def dictEraseAt (h : DictHeap) (r : Nat) (k : String) : DictHeap :=
  match heapGet h r with
  | some d => heapSet h r (aerase d k)
  | none => h

/-! ## Concrete fixtures used by witness and counterexample theorems -/

/-- Witness for C2: a concrete run with one document and a completion
response containing "yes", and a concrete empty-documents run. -/
def gradePortsYes : Ports :=
  { retrieveDocs := fun _ _ => .ok [],
    complete := fun _ _ => .ok "Yes, these are relevant.",
    streamComplete := fun _ => .ok [] }

def gradeStateDocs : RunState :=
  { agent := { initAgentState "q" 2 with documents := ["some doc"] },
    retrievalCalls := 0, llmCalls := 0 }

/-- A grading port whose response does not contain "yes". -/
def gradePortsNo : Ports :=
  { retrieveDocs := fun _ _ => .ok [],
    complete := fun _ _ => .ok "These documents are off-topic.",
    streamComplete := fun _ => .ok [] }

/-- Witness for C4: one port whose completion succeeds and one whose
completion fails, each applied at a concrete state. -/
def rewritePortsOk : Ports :=
  { retrieveDocs := fun _ _ => .ok [],
    complete := fun _ _ => .ok " a better question ",
    streamComplete := fun _ => .ok [] }

def rewritePortsErr : Ports :=
  { retrieveDocs := fun _ _ => .ok [],
    complete := fun _ _ => .error "llm down",
    streamComplete := fun _ => .ok [] }

/-- The exact test message of the claim: it contains the debugging
keyword "stuck" as well as implementation and confusion keywords. -/
def msgC3 : String :=
  "I" ++ apos ++ "m stuck implementing a BST but I don" ++ apos ++ "t understand recursion"

/-- A classifier whose output is not a valid phase label. -/
def bananaLLM : Completion := fun _ => .ok "BANANA"

/-- A first-turn message hitting the debugging-keyword rule. -/
def msgC5 : String := "I" ++ apos ++ "m stuck"

/-- A completion port that always answers with a fixed response. -/
def okLLM : Completion := fun _ => .ok "resp"

/-- The state initial_node produces from a fresh state and the message
"hi" under okLLM. -/
def c9OutState : PedagogicalState :=
  { conversation_id := "x", current_phase := .INITIAL, problem_statement := none,
    last_user_message := some "hi", last_ai_response := some "resp",
    phase_history := ["initial"] }

/-- A one-conversation store on the heap, owned at reference 0. -/
def d10 : StatesDict := [("a", freshPedagogicalState "a")]

def h10 : DictHeap := [(0, d10)]

/-- The completion port succeeds on every rewrite-step call for the
given original question (the reformulation prompt is a function of the
original question alone, so this covers exactly the rewrite calls of a
run on that question). -/
def rewriteAlwaysSucceeds (P : Ports) (q : String) : Prop :=
  ∀ n, ∃ t, P.complete n (mkRewritePrompt q) = Except.ok t

/-- Ports on which every external call fails: retrieval yields no
documents and the completion port raises, in particular during every
rewrite step. -/
def badPorts : Ports :=
  { retrieveDocs := fun _ _ => .error "retrieval down",
    complete := fun _ _ => .error "llm down",
    streamComplete := fun _ => .error "llm down" }

/-- Ports whose retrieval always fails but whose completion port always
succeeds, so every rewrite step succeeds while grading keeps judging
the empty document list irrelevant. -/
def loopPortsOk : Ports :=
  { retrieveDocs := fun _ _ => .error "down",
    complete := fun _ _ => .ok "sure",
    streamComplete := fun _ => .ok [] }

/-- Ports for the streaming witness: one retrieved document, a grading
response containing "yes", and a two-fragment streamed answer. -/
def streamPorts : Ports :=
  { retrieveDocs := fun _ _ => .ok [("docA", (0.5 : Float), "m")],
    complete := fun _ _ => .ok "yes",
    streamComplete := fun _ => .ok ["Hel", "lo "] }

/-! ## Association-list and heap lemmas -/

lemma alookup_aset_self {β : Type} (l : List (String × β)) (k : String) (v : β) :
    alookup (aset l k v) k = some v := by
  induction l with
  | nil => simp [aset, alookup]
  | cons p t ih =>
      obtain ⟨k1, v1⟩ := p
      by_cases h : k1 = k
      · simp [aset, alookup, h]
      · simp [aset, alookup, h, ih]

lemma alookup_aerase {β : Type} (l : List (String × β)) (k : String) :
    alookup (aerase l k) k = none := by
  induction l with
  | nil => simp [aerase, alookup]
  | cons p t ih =>
      obtain ⟨k1, v1⟩ := p
      by_cases h : k1 = k
      · simpa [aerase, h] using ih
      · simpa [aerase, alookup, h] using ih

lemma heapGet_heapSet_self (h : DictHeap) (r : Nat) (d : StatesDict) :
    heapGet (heapSet h r d) r = some d := by
  induction h with
  | nil => simp [heapSet, heapGet]
  | cons p t ih =>
      obtain ⟨r1, d1⟩ := p
      by_cases hr : r1 = r
      · simp [heapSet, heapGet, hr]
      · simp [heapSet, heapGet, hr, ih]

lemma heapGet_heapSet_ne (h : DictHeap) (r : Nat) (d : StatesDict) (r1 : Nat)
    (hne : r1 ≠ r) : heapGet (heapSet h r d) r1 = heapGet h r1 := by
  have hne1 : ¬ r = r1 := fun he => hne he.symm
  induction h with
  | nil => simp [heapSet, heapGet, hne1]
  | cons p t ih =>
      obtain ⟨r2, d2⟩ := p
      by_cases hr : r2 = r
      · subst hr
        simp [heapSet, heapGet, hne1]
      · by_cases hr1 : r2 = r1
        · subst hr1
          simp [heapSet, heapGet, hr]
        · simp [heapSet, heapGet, hr, hr1, ih]

lemma heapGet_lt_freshRef (h : DictHeap) (r : Nat) (d : StatesDict)
    (hd : heapGet h r = some d) : r < freshRef h := by
  induction h with
  | nil => simp [heapGet] at hd
  | cons p t ih =>
      obtain ⟨r1, d1⟩ := p
      unfold freshRef at *
      by_cases hr : r1 = r
      · subst hr
        simp only [List.map_cons, List.foldr_cons]
        omega
      · simp only [heapGet, hr, if_false] at hd
        have := ih hd
        simp only [List.map_cons, List.foldr_cons]
        omega

/-! ## Claim theorems -/

/-- C2: the grade step sets the decision to "no" without a completion
call when the documents list is empty; with documents it sets "yes"
exactly when the completion response contains "yes" after stripping and
lowercasing (a case-insensitive substring match), else "no"; and on a
completion-port failure it fails safe to "yes". In the source the
spec-level labels "relevant" and "irrelevant" are the strings "yes"
and "no". -/
theorem grade_documents_spec (P : Ports) (s : RunState) :
    (s.agent.documents = [] →
      (gradeNode P s).agent.relevance_decision = some "no" ∧
      (gradeNode P s).llmCalls = s.llmCalls) ∧
    (s.agent.documents ≠ [] →
      (∀ txt, P.complete s.llmCalls
          (mkGradingPrompt (questionOf s.agent) s.agent.documents) = .ok txt →
        ((gradeNode P s).agent.relevance_decision = some "yes" ↔
          containsS (toLowerS (trimS txt)) "yes" = true) ∧
        (containsS (toLowerS (trimS txt)) "yes" = false →
          (gradeNode P s).agent.relevance_decision = some "no")) ∧
      (∀ e, P.complete s.llmCalls
          (mkGradingPrompt (questionOf s.agent) s.agent.documents) = .error e →
        (gradeNode P s).agent.relevance_decision = some "yes")) := by
  constructor
  · intro h
    simp [gradeNode, h]
  · intro h
    have hne : s.agent.documents.isEmpty = false := by
      simpa [List.isEmpty_iff] using h
    constructor
    · intro txt htxt
      by_cases hc : containsS (toLowerS (trimS txt)) "yes" = true
      · constructor
        · simp [gradeNode, hne, htxt, hc]
        · intro hc1
          rw [hc] at hc1
          exact absurd hc1 (by simp)
      · have hc0 : containsS (toLowerS (trimS txt)) "yes" = false := by
          simpa using hc
        constructor
        · simp [gradeNode, hne, htxt, hc]
        · intro _
          simp [gradeNode, hne, htxt, hc0]
    · intro e he
      simp [gradeNode, hne, he]

theorem grade_documents_spec_witness :
    (gradeStateDocs.agent.documents ≠ []) ∧
    (gradePortsYes.complete 0
      (mkGradingPrompt (questionOf gradeStateDocs.agent) gradeStateDocs.agent.documents)
        = .ok "Yes, these are relevant.") ∧
    (gradeNode gradePortsYes gradeStateDocs).agent.relevance_decision = some "yes" ∧
    (gradePortsNo.complete 0
      (mkGradingPrompt (questionOf gradeStateDocs.agent) gradeStateDocs.agent.documents)
        = .ok "These documents are off-topic.") ∧
    containsS (toLowerS (trimS "These documents are off-topic.")) "yes" = false ∧
    (gradeNode gradePortsNo gradeStateDocs).agent.relevance_decision = some "no" ∧
    ((initRunState "q" 2).agent.documents = [] ∧
      (gradeNode gradePortsYes (initRunState "q" 2)).agent.relevance_decision = some "no") :=
  ⟨by decide, rfl,
    ((((grade_documents_spec gradePortsYes gradeStateDocs).2 (by decide)).1
      "Yes, these are relevant." rfl).1).mpr (by decide),
    rfl, by decide,
    ((((grade_documents_spec gradePortsNo gradeStateDocs).2 (by decide)).1
      "These documents are off-topic." rfl).2) (by decide),
    ⟨rfl, ((grade_documents_spec gradePortsYes (initRunState "q" 2)).1 rfl).1⟩⟩

/-- C4: the reformulation prompt depends only on the original question
(it is invariant under changes to the rewritten question); on
completion success the rewritten question becomes the stripped result
and the retry count rises by exactly one; on completion failure both
are unchanged, while "rewrite" is appended to the workflow path in
either case. -/
theorem rewrite_query_spec (P : Ports) (s : RunState) :
    rewritePromptOf s.agent = mkRewritePrompt s.agent.question ∧
    (∀ r, rewritePromptOf { s.agent with rewritten_question := r } =
      rewritePromptOf s.agent) ∧
    (∀ txt, P.complete s.llmCalls (rewritePromptOf s.agent) = .ok txt →
      (rewriteNode P s).agent.rewritten_question = some (trimS txt) ∧
      (rewriteNode P s).agent.retry_count = s.agent.retry_count + 1 ∧
      (rewriteNode P s).agent.workflow_path = s.agent.workflow_path ++ ["rewrite"]) ∧
    (∀ e, P.complete s.llmCalls (rewritePromptOf s.agent) = .error e →
      (rewriteNode P s).agent.rewritten_question = s.agent.rewritten_question ∧
      (rewriteNode P s).agent.retry_count = s.agent.retry_count ∧
      (rewriteNode P s).agent.workflow_path = s.agent.workflow_path ++ ["rewrite"]) := by
  refine ⟨rfl, fun r => rfl, ?_, ?_⟩
  · intro txt htxt
    simp [rewriteNode, htxt]
  · intro e he
    simp [rewriteNode, he]

theorem rewrite_query_spec_witness :
    (rewritePortsOk.complete 0 (rewritePromptOf (initAgentState "q" 2))
      = .ok " a better question ") ∧
    ((rewriteNode rewritePortsOk (initRunState "q" 2)).agent.rewritten_question
      = some (trimS " a better question ") ∧
     (rewriteNode rewritePortsOk (initRunState "q" 2)).agent.retry_count = 0 + 1) ∧
    (rewritePortsErr.complete 0 (rewritePromptOf (initAgentState "q" 2))
      = .error "llm down") ∧
    ((rewriteNode rewritePortsErr (initRunState "q" 2)).agent.rewritten_question = none ∧
     (rewriteNode rewritePortsErr (initRunState "q" 2)).agent.retry_count = 0) :=
  ⟨rfl,
    ⟨((rewrite_query_spec rewritePortsOk (initRunState "q" 2)).2.2.1
        " a better question " rfl).1,
      ((rewrite_query_spec rewritePortsOk (initRunState "q" 2)).2.2.1
        " a better question " rfl).2.1⟩,
    rfl,
    ⟨((rewrite_query_spec rewritePortsErr (initRunState "q" 2)).2.2.2
        "llm down" rfl).1,
      ((rewrite_query_spec rewritePortsErr (initRunState "q" 2)).2.2.2
        "llm down" rfl).2.1⟩⟩

/-- C3 counterexample: for the claimed message with an invalid classifier
label, the fallback selects DEBUGGING, not EXPLANATION, because the
debugging-keyword rule is checked first and the message contains
"stuck". -/
theorem route_stuck_message_not_explanation :
    classifierLabel bananaLLM (freshPedagogicalState "t") msgC3 ∉ valid_phases ∧
    route_phase bananaLLM (freshPedagogicalState "t") msgC3 = "DEBUGGING" ∧
    route_phase bananaLLM (freshPedagogicalState "t") msgC3 ≠ "EXPLANATION" ∧
    route_phase bananaLLM (freshPedagogicalState "t") msgC3 ≠ "IMPLEMENTATION" := by
  refine ⟨by decide, by decide, by decide, by decide⟩

/-- C3 amended: for the message of the claim, whenever the classifier
produces no valid phase label, the fallback selects DEBUGGING for every
state (the debugging-keyword rule fires on "stuck" and has priority
over the confusion-keyword and implementation-keyword rules), so in
particular the selection is never IMPLEMENTATION. -/
theorem route_stuck_message_debugging (llm : Completion) (ps : PedagogicalState)
    (h : classifierLabel llm ps msgC3 ∉ valid_phases) :
    route_phase llm ps msgC3 = "DEBUGGING" := by
  have hk : hasKeyword msgC3 debugKeywords = true := by decide
  simp [route_phase, h, hk]

theorem route_stuck_message_debugging_witness :
    (classifierLabel bananaLLM (freshPedagogicalState "s") msgC3 ∉ valid_phases) ∧
    route_phase bananaLLM (freshPedagogicalState "s") msgC3 = "DEBUGGING" :=
  ⟨by decide,
    route_stuck_message_debugging bananaLLM (freshPedagogicalState "s") (by decide)⟩

/-- C5 counterexample: on the first turn of a brand-new conversation
with an invalid classifier label, a message containing a debugging
keyword routes to DEBUGGING, not INITIAL: the first-turn rule is only
checked after the debugging- and completion-keyword rules. -/
theorem route_first_turn_not_always_initial :
    (freshPedagogicalState "w").phase_history = [] ∧
    (freshPedagogicalState "w").problem_statement = none ∧
    classifierLabel bananaLLM (freshPedagogicalState "w") msgC5 ∉ valid_phases ∧
    route_phase bananaLLM (freshPedagogicalState "w") msgC5 = "DEBUGGING" ∧
    route_phase bananaLLM (freshPedagogicalState "w") msgC5 ≠ "INITIAL" := by
  refine ⟨rfl, rfl, by decide, by decide, by decide⟩

/-- C5 amended: on the first turn of a brand-new conversation (empty
phase history, no problem statement) with an invalid classifier label,
the fallback selects INITIAL for every message that contains no
debugging keyword and no completion keyword (the two rules checked
before the first-turn rule). -/
theorem route_first_turn_initial (llm : Completion) (ps : PedagogicalState)
    (msg : String)
    (h : classifierLabel llm ps msg ∉ valid_phases)
    (h1 : hasKeyword msg debugKeywords = false)
    (h2 : hasKeyword msg reflectionKeywords = false)
    (h3 : ps.problem_statement = none)
    (h4 : ps.phase_history = []) :
    route_phase llm ps msg = "INITIAL" := by
  simp [route_phase, h, h1, h2, h3, h4]

theorem route_first_turn_initial_witness :
    (classifierLabel bananaLLM (freshPedagogicalState "w") "hello" ∉ valid_phases) ∧
    hasKeyword "hello" debugKeywords = false ∧
    hasKeyword "hello" reflectionKeywords = false ∧
    (freshPedagogicalState "w").problem_statement = none ∧
    (freshPedagogicalState "w").phase_history = [] ∧
    route_phase bananaLLM (freshPedagogicalState "w") "hello" = "INITIAL" :=
  ⟨by decide, by decide, by decide, rfl, rfl,
    route_first_turn_initial bananaLLM (freshPedagogicalState "w") "hello"
      (by decide) (by decide) (by decide) rfl rfl⟩

/-- C6: get_or_create_state is idempotent: a second call with the same
identifier and no intervening update returns the same state and leaves
the store unchanged; and delete_state followed by get_state on the same
identifier reports the state as absent. -/
theorem state_store_idempotent_create_delete_get :
    (∀ (m : StateManager) (id : String),
      ((m.get_or_create_state id).2.get_or_create_state id).1
        = (m.get_or_create_state id).1 ∧
      ((m.get_or_create_state id).2.get_or_create_state id).2
        = (m.get_or_create_state id).2) ∧
    (∀ (m : StateManager) (id : String),
      ((m.delete_state id).2).get_state id = none) := by
  constructor
  · intro m id
    cases h : alookup m.states id with
    | some s =>
        simp [StateManager.get_or_create_state, h]
    | none =>
        simp [StateManager.get_or_create_state, h, alookup_aset_self]
  · intro m id
    cases h : alookup m.states id with
    | some s =>
        simp [StateManager.delete_state, StateManager.get_state, h, alookup_aerase]
    | none =>
        simp [StateManager.delete_state, StateManager.get_state, h]

/-- The five phase labels are pairwise distinct strings. -/
lemma TutoringPhase.value_inj :
    ∀ a b : TutoringPhase, a.value = b.value → a = b := by
  intro a b h
  cases a <;> cases b <;> simp_all [TutoringPhase.value]

/-- C9: transition_to_phase appends the previous phase value only when
the phase changes (so the appended entry differs from the new current
phase), and is the identity otherwise; every phase node handler appends
its own phase value unconditionally and sets the current phase to that
phase, so after a handler the last history entry equals the current
phase value. -/
theorem phase_history_append_semantics :
    (∀ (s : PedagogicalState) (p : TutoringPhase), p ≠ s.current_phase →
      (transition_to_phase s p).phase_history
        = s.phase_history ++ [s.current_phase.value] ∧
      (transition_to_phase s p).current_phase = p ∧
      (transition_to_phase s p).phase_history.getLast?
        ≠ some (transition_to_phase s p).current_phase.value) ∧
    (∀ (s : PedagogicalState) (p : TutoringPhase), p = s.current_phase →
      transition_to_phase s p = s) ∧
    (∀ (llm : Completion) (s : PedagogicalState) (msg g : String)
        (s1 : PedagogicalState), initial_node llm s msg = .ok (g, s1) →
      s1.phase_history = s.phase_history ++ [TutoringPhase.INITIAL.value] ∧
      s1.current_phase = .INITIAL ∧
      s1.phase_history.getLast? = some s1.current_phase.value) ∧
    (∀ (llm : Completion) (s : PedagogicalState) (msg g : String)
        (s1 : PedagogicalState), explanation_node llm s msg = .ok (g, s1) →
      s1.phase_history = s.phase_history ++ [TutoringPhase.EXPLANATION.value] ∧
      s1.current_phase = .EXPLANATION ∧
      s1.phase_history.getLast? = some s1.current_phase.value) ∧
    (∀ (llm : Completion) (s : PedagogicalState) (msg g : String)
        (s1 : PedagogicalState), implementation_node llm s msg = .ok (g, s1) →
      s1.phase_history = s.phase_history ++ [TutoringPhase.IMPLEMENTATION.value] ∧
      s1.current_phase = .IMPLEMENTATION ∧
      s1.phase_history.getLast? = some s1.current_phase.value) ∧
    (∀ (s : PedagogicalState) (msg : String),
      (debugging_node s msg).2.phase_history
        = s.phase_history ++ [TutoringPhase.DEBUGGING.value] ∧
      (debugging_node s msg).2.current_phase = .DEBUGGING ∧
      (debugging_node s msg).2.phase_history.getLast?
        = some (debugging_node s msg).2.current_phase.value) ∧
    (∀ (llm : Completion) (s : PedagogicalState) (msg g : String)
        (s1 : PedagogicalState), reflection_node llm s msg = .ok (g, s1) →
      s1.phase_history = s.phase_history ++ [TutoringPhase.REFLECTION.value] ∧
      s1.current_phase = .REFLECTION ∧
      s1.phase_history.getLast? = some s1.current_phase.value) := by
  refine ⟨?_, ?_, ?_, ?_, ?_, ?_, ?_⟩
  · intro s p hne
    have hval : s.current_phase.value ≠ p.value := by
      intro he
      exact hne (TutoringPhase.value_inj _ _ he).symm
    refine ⟨by simp [transition_to_phase, Ne.symm hne], by simp [transition_to_phase, Ne.symm hne], ?_⟩
    simp only [transition_to_phase, Ne.symm hne, if_pos, ne_eq]
    simp [List.getLast?_concat, hval]
  · intro s p he
    simp [transition_to_phase, he]
  · intro llm s msg g s1 h
    cases ho : llm (mkInitialPrompt msg) with
    | error e => rw [initial_node, ho] at h; simp [Except.map] at h
    | ok t =>
        rw [initial_node, ho] at h
        simp only [Except.map, Except.ok.injEq, Prod.mk.injEq] at h
        rw [← h.2]
        simp [TutoringPhase.value, List.getLast?_concat]
  · intro llm s msg g s1 h
    cases ho : llm (mkExplanationPrompt s msg) with
    | error e => rw [explanation_node, ho] at h; simp [Except.map] at h
    | ok t =>
        rw [explanation_node, ho] at h
        simp only [Except.map, Except.ok.injEq, Prod.mk.injEq] at h
        rw [← h.2]
        simp [TutoringPhase.value, List.getLast?_concat]
  · intro llm s msg g s1 h
    cases ho : llm (mkImplementationPrompt s msg) with
    | error e => rw [implementation_node, ho] at h; simp [Except.map] at h
    | ok t =>
        rw [implementation_node, ho] at h
        simp only [Except.map, Except.ok.injEq, Prod.mk.injEq] at h
        rw [← h.2]
        simp [TutoringPhase.value, List.getLast?_concat]
  · intro s msg
    simp [debugging_node, TutoringPhase.value, List.getLast?_concat]
  · intro llm s msg g s1 h
    cases ho : llm (mkReflectionPrompt s msg) with
    | error e => rw [reflection_node, ho] at h; simp [Except.map] at h
    | ok t =>
        rw [reflection_node, ho] at h
        simp only [Except.map, Except.ok.injEq, Prod.mk.injEq] at h
        rw [← h.2]
        simp [TutoringPhase.value, List.getLast?_concat]

theorem phase_history_append_semantics_witness :
    (TutoringPhase.EXPLANATION ≠ (freshPedagogicalState "x").current_phase) ∧
    (transition_to_phase (freshPedagogicalState "x") .EXPLANATION).phase_history
      = (freshPedagogicalState "x").phase_history
        ++ [(freshPedagogicalState "x").current_phase.value] ∧
    (initial_node okLLM (freshPedagogicalState "x") "hi" = .ok ("resp", c9OutState)) ∧
    c9OutState.phase_history.getLast? = some c9OutState.current_phase.value :=
  ⟨by decide,
    (phase_history_append_semantics.1 (freshPedagogicalState "x") .EXPLANATION
      (by decide)).1,
    by rfl,
    (phase_history_append_semantics.2.2.1 okLLM (freshPedagogicalState "x") "hi"
      "resp" c9OutState (by rfl)).2.2⟩

/-- C10: get_all_states returns a copy of the registry: the returned
mapping holds exactly the current contents of the store, the reference
returned is distinct from the one the store owns, and adding or
removing entries through the returned reference leaves the contents at
the store reference unchanged. -/
theorem get_all_states_copy_spec (h : DictHeap) (selfRef : Nat) (d : StatesDict)
    (hd : heapGet h selfRef = some d) :
    ∃ r h1, get_all_states_heap h selfRef = some (r, h1) ∧
      r ≠ selfRef ∧
      heapGet h1 r = some d ∧
      heapGet h1 selfRef = some d ∧
      (∀ k v, heapGet (dictInsertAt h1 r k v) selfRef = some d) ∧
      (∀ k, heapGet (dictEraseAt h1 r k) selfRef = some d) := by
  have hlt : selfRef < freshRef h := heapGet_lt_freshRef h selfRef d hd
  have hne : selfRef ≠ freshRef h := Nat.ne_of_lt hlt
  have hne1 : freshRef h ≠ selfRef := fun he => hne he.symm
  refine ⟨freshRef h, heapSet h (freshRef h) d, ?_, hne1, ?_, ?_, ?_, ?_⟩
  · simp [get_all_states_heap, hd]
  · exact heapGet_heapSet_self h (freshRef h) d
  · rw [heapGet_heapSet_ne h (freshRef h) d selfRef hne]; exact hd
  · intro k v
    unfold dictInsertAt
    rw [heapGet_heapSet_self h (freshRef h) d]
    rw [heapGet_heapSet_ne _ (freshRef h) _ selfRef hne]
    rw [heapGet_heapSet_ne h (freshRef h) d selfRef hne]
    exact hd
  · intro k
    unfold dictEraseAt
    rw [heapGet_heapSet_self h (freshRef h) d]
    rw [heapGet_heapSet_ne _ (freshRef h) _ selfRef hne]
    rw [heapGet_heapSet_ne h (freshRef h) d selfRef hne]
    exact hd

theorem get_all_states_copy_spec_witness :
    heapGet h10 0 = some d10 ∧
    (∃ r h1, get_all_states_heap h10 0 = some (r, h1) ∧
      r ≠ 0 ∧
      heapGet h1 r = some d10 ∧
      heapGet h1 0 = some d10 ∧
      (∀ k v, heapGet (dictInsertAt h1 r k v) 0 = some d10) ∧
      (∀ k, heapGet (dictEraseAt h1 r k) 0 = some d10)) :=
  ⟨rfl, get_all_states_copy_spec h10 0 d10 rfl⟩

/-! ## Correction-loop execution lemmas -/

lemma retrieveNode_shape (P : Ports) (s : RunState) :
    ∃ docs scores metas,
      retrieveNode P s =
        { agent := { s.agent with
            workflow_path := s.agent.workflow_path ++ ["retrieve"],
            documents := docs, document_scores := scores,
            document_metadata := metas },
          retrievalCalls := s.retrievalCalls + 1, llmCalls := s.llmCalls } := by
  cases h : P.retrieveDocs s.retrievalCalls (questionOf s.agent) with
  | ok nodes =>
      exact ⟨nodes.map (fun n => n.1), nodes.map (fun n => n.2.1),
        nodes.map (fun n => n.2.2), by simp [retrieveNode, h]⟩
  | error e => exact ⟨[], [], [], by simp [retrieveNode, h]⟩

lemma gradeNode_shape (P : Ports) (s : RunState) :
    ∃ dec lc,
      gradeNode P s =
        { agent := { s.agent with
            workflow_path := s.agent.workflow_path ++ ["grade"],
            relevance_decision := some dec },
          retrievalCalls := s.retrievalCalls, llmCalls := lc } := by
  by_cases he : s.agent.documents.isEmpty
  · exact ⟨"no", s.llmCalls, by simp [gradeNode, he]⟩
  · cases hc : P.complete s.llmCalls
        (mkGradingPrompt (questionOf s.agent) s.agent.documents) with
    | ok txt =>
        by_cases hy : containsS (toLowerS (trimS txt)) "yes"
        · exact ⟨"yes", s.llmCalls + 1, by simp [gradeNode, he, hc, hy]⟩
        · exact ⟨"no", s.llmCalls + 1, by simp [gradeNode, he, hc, hy]⟩
    | error e => exact ⟨"yes", s.llmCalls + 1, by simp [gradeNode, he, hc]⟩

lemma rewriteNode_ok (P : Ports) (s : RunState) (t : String)
    (h : P.complete s.llmCalls (rewritePromptOf s.agent) = .ok t) :
    rewriteNode P s =
      { agent := { s.agent with
          workflow_path := s.agent.workflow_path ++ ["rewrite"],
          rewritten_question := some (trimS t),
          retry_count := s.agent.retry_count + 1 },
        retrievalCalls := s.retrievalCalls, llmCalls := s.llmCalls + 1 } := by
  simp [rewriteNode, h]

lemma generateNode_shape (P : Ports) (s : RunState) :
    ∃ gen sp,
      generateNode P s =
        { agent := { s.agent with
            workflow_path := s.agent.workflow_path ++ ["generate"],
            generation := gen, slm_prompt := some sp },
          retrievalCalls := s.retrievalCalls, llmCalls := s.llmCalls + 1 } := by
  cases h : P.complete s.llmCalls
      (mkGenerationPrompt (questionOf s.agent) s.agent.documents) with
  | ok txt =>
      exact ⟨trimS txt, mkGenerationPrompt (questionOf s.agent) s.agent.documents,
        by simp [generateNode, h]⟩
  | error e =>
      exact ⟨"I apologize, but I encountered an error generating the answer: " ++ e,
        mkGenerationPrompt (questionOf s.agent) s.agent.documents,
        by simp [generateNode, h]⟩

lemma decideAfterGrading_cases (a : AgentState) :
    decideAfterGrading a = "generate" ∨ decideAfterGrading a = "rewrite" := by
  unfold decideAfterGrading
  split_ifs <;> simp

lemma decideAfterGrading_generate_of_le (a : AgentState)
    (h : a.max_retries ≤ a.retry_count) : decideAfterGrading a = "generate" := by
  unfold decideAfterGrading
  split_ifs <;> simp_all

lemma decideAfterGrading_rewrite_lt (a : AgentState)
    (h : decideAfterGrading a = "rewrite") : a.retry_count < a.max_retries := by
  unfold decideAfterGrading at h
  split_ifs at h <;> simp_all

lemma runGraph_cont (P : Ports) (f : Nat) (n : GNode) (s s1 : RunState)
    (n1 : GNode) (h : stepNode P n s = (s1, some n1)) :
    runGraph P (f + 1) n s =
      ((runGraph P f n1 s1).1, (runGraph P f n1 s1).2.1,
        n :: (runGraph P f n1 s1).2.2) := by
  simp [runGraph, h]

lemma runGraph_end (P : Ports) (f : Nat) (n : GNode) (s s1 : RunState)
    (h : stepNode P n s = (s1, none)) :
    runGraph P (f + 1) n s = (s1, true, [n]) := by
  simp [runGraph, h]

lemma stepNode_grade_generate (P : Ports) (s : RunState)
    (h : decideAfterGrading (gradeNode P s).agent = "generate") :
    stepNode P .grade_documents s = (gradeNode P s, some .generate) := by
  simp [stepNode, h]

lemma stepNode_grade_rewrite (P : Ports) (s : RunState)
    (h : decideAfterGrading (gradeNode P s).agent = "rewrite") :
    stepNode P .grade_documents s = (gradeNode P s, some .rewrite_query) := by
  simp [stepNode, h]

/-- A run segment that reaches generation: when routing after grading
says "generate", three more steps finish the run. -/
lemma runGraph_genSeg (P : Ports) (f : Nat) (s : RunState)
    (hdec : decideAfterGrading (gradeNode P (retrieveNode P s)).agent = "generate") :
    runGraph P (f + 3) .retrieve s =
      (generateNode P (gradeNode P (retrieveNode P s)), true,
        [.retrieve, .grade_documents, .generate]) := by
  have e3 : runGraph P (f + 1) .generate (gradeNode P (retrieveNode P s))
      = (generateNode P (gradeNode P (retrieveNode P s)), true, [GNode.generate]) :=
    runGraph_end P f _ _ _ rfl
  have e2 : runGraph P (f + 2) .grade_documents (retrieveNode P s)
      = (generateNode P (gradeNode P (retrieveNode P s)), true,
          [GNode.grade_documents, GNode.generate]) := by
    have := runGraph_cont P (f + 1) .grade_documents (retrieveNode P s)
      (gradeNode P (retrieveNode P s)) .generate
      (stepNode_grade_generate P (retrieveNode P s) hdec)
    rw [this, e3]
  have e1 := runGraph_cont P (f + 2) .retrieve s (retrieveNode P s)
    .grade_documents rfl
  rw [e1, e2]

/-- A run segment that loops: when routing after grading says "rewrite",
three steps bring the run back to the retrieve node. -/
lemma runGraph_loopSeg (P : Ports) (f : Nat) (s : RunState)
    (hdec : decideAfterGrading (gradeNode P (retrieveNode P s)).agent = "rewrite") :
    runGraph P (f + 3) .retrieve s =
      ((runGraph P f .retrieve (rewriteNode P (gradeNode P (retrieveNode P s)))).1,
       (runGraph P f .retrieve (rewriteNode P (gradeNode P (retrieveNode P s)))).2.1,
       .retrieve :: .grade_documents :: .rewrite_query ::
         (runGraph P f .retrieve (rewriteNode P (gradeNode P (retrieveNode P s)))).2.2) := by
  have e3 := runGraph_cont P f .rewrite_query (gradeNode P (retrieveNode P s))
    (rewriteNode P (gradeNode P (retrieveNode P s))) .retrieve rfl
  have e2 : runGraph P (f + 2) .grade_documents (retrieveNode P s)
      = ((runGraph P f .retrieve (rewriteNode P (gradeNode P (retrieveNode P s)))).1,
         (runGraph P f .retrieve (rewriteNode P (gradeNode P (retrieveNode P s)))).2.1,
         .grade_documents :: .rewrite_query ::
           (runGraph P f .retrieve (rewriteNode P (gradeNode P (retrieveNode P s)))).2.2) := by
    have := runGraph_cont P (f + 1) .grade_documents (retrieveNode P s)
      (gradeNode P (retrieveNode P s)) .rewrite_query
      (stepNode_grade_rewrite P (retrieveNode P s) hdec)
    rw [this, e3]
  have e1 := runGraph_cont P (f + 2) .retrieve s (retrieveNode P s)
    .grade_documents rfl
  rw [e1, e2]

/-- Bounded-loop lemma: when every rewrite-step completion call
succeeds, a run from the retrieve node terminates within three steps
per remaining retry plus three, the retry count never exceeds the
retry budget, and the workflow path gains a suffix ending in
"generate" whose "rewrite" entries count exactly the retries consumed
and whose "retrieve" entries exceed them by one. -/
lemma correction_loop_run (P : Ports) (q : String)
    (hok : rewriteAlwaysSucceeds P q) :
    ∀ (d : Nat) (s : RunState), s.agent.question = q →
      s.agent.max_retries = s.agent.retry_count + d →
      ∃ (f : RunState) (vs : List GNode),
        runGraph P (3 * d + 3) .retrieve s = (f, true, vs) ∧
        f.agent.max_retries = s.agent.max_retries ∧
        s.agent.retry_count ≤ f.agent.retry_count ∧
        f.agent.retry_count ≤ s.agent.max_retries ∧
        ∃ extra, f.agent.workflow_path = s.agent.workflow_path ++ extra ∧
          extra.getLast? = some "generate" ∧
          extra.count "rewrite" = f.agent.retry_count - s.agent.retry_count ∧
          extra.count "retrieve" = extra.count "rewrite" + 1 := by
  intro d
  induction d with
  | zero =>
      intro s hq hm
      obtain ⟨docs, scores, metas, h1⟩ := retrieveNode_shape P s
      obtain ⟨dec, lc, h2⟩ := gradeNode_shape P (retrieveNode P s)
      have hretry : (gradeNode P (retrieveNode P s)).agent.retry_count
          = s.agent.retry_count := by rw [h2, h1]
      have hmax : (gradeNode P (retrieveNode P s)).agent.max_retries
          = s.agent.max_retries := by rw [h2, h1]
      have hdec : decideAfterGrading (gradeNode P (retrieveNode P s)).agent
          = "generate" := by
        apply decideAfterGrading_generate_of_le
        rw [hretry, hmax]
        omega
      obtain ⟨gen, sp, h3⟩ := generateNode_shape P (gradeNode P (retrieveNode P s))
      refine ⟨_, _, runGraph_genSeg P 0 s hdec, ?_, ?_, ?_,
        ⟨["retrieve", "grade", "generate"], ?_, by simp, ?_, by simp⟩⟩
      · rw [h3, hmax]
      · rw [h3, hretry]
      · rw [h3, hretry]; omega
      · rw [h3, h2, h1]; simp
      · rw [h3, hretry]; simp
  | succ d ih =>
      intro s hq hm
      obtain ⟨docs, scores, metas, h1⟩ := retrieveNode_shape P s
      obtain ⟨dec, lc, h2⟩ := gradeNode_shape P (retrieveNode P s)
      have hretry : (gradeNode P (retrieveNode P s)).agent.retry_count
          = s.agent.retry_count := by rw [h2, h1]
      have hmax : (gradeNode P (retrieveNode P s)).agent.max_retries
          = s.agent.max_retries := by rw [h2, h1]
      have hquest : (gradeNode P (retrieveNode P s)).agent.question
          = s.agent.question := by rw [h2, h1]
      rcases decideAfterGrading_cases (gradeNode P (retrieveNode P s)).agent
        with hdec | hdec
      · obtain ⟨gen, sp, h3⟩ := generateNode_shape P (gradeNode P (retrieveNode P s))
        have harith : 3 * (d + 1) + 3 = (3 * d + 3) + 3 := by ring
        rw [harith]
        refine ⟨_, _, runGraph_genSeg P (3 * d + 3) s hdec, ?_, ?_, ?_,
          ⟨["retrieve", "grade", "generate"], ?_, by simp, ?_, by simp⟩⟩
        · rw [h3, hmax]
        · rw [h3, hretry]
        · rw [h3, hretry]; omega
        · rw [h3, h2, h1]; simp
        · rw [h3, hretry]; simp
      · -- the rewrite branch: one successful rewrite, then the induction
        -- hypothesis on the remaining budget
        obtain ⟨t, ht⟩ := hok (gradeNode P (retrieveNode P s)).llmCalls
        have hprompt : rewritePromptOf (gradeNode P (retrieveNode P s)).agent
            = mkRewritePrompt q := by
          rw [rewritePromptOf, hquest, hq]
        have h3 := rewriteNode_ok P (gradeNode P (retrieveNode P s)) t
          (by rw [hprompt]; exact ht)
        have hq3 : (rewriteNode P (gradeNode P (retrieveNode P s))).agent.question
            = q := by rw [h3]; simpa [hquest] using hq
        have hr3 : (rewriteNode P (gradeNode P (retrieveNode P s))).agent.retry_count
            = s.agent.retry_count + 1 := by
          rw [h3]; simp [hretry]
        have hm3txt : (rewriteNode P (gradeNode P (retrieveNode P s))).agent.max_retries
            = s.agent.max_retries := by
          rw [h3]; simp [hmax]
        have hw3 : (rewriteNode P (gradeNode P (retrieveNode P s))).agent.workflow_path
            = s.agent.workflow_path ++ ["retrieve", "grade", "rewrite"] := by
          rw [h3, h2, h1]; simp
        obtain ⟨f, vs, eIH, fmax, fle, fub, extra, epath, elast, ecrw, ecre⟩ :=
          ih (rewriteNode P (gradeNode P (retrieveNode P s))) hq3 (by omega)
        have harith : 3 * (d + 1) + 3 = (3 * d + 3) + 3 := by ring
        rw [harith, runGraph_loopSeg P (3 * d + 3) s hdec, eIH]
        refine ⟨f, _, rfl, ?_, ?_, ?_,
          ⟨["retrieve", "grade", "rewrite"] ++ extra, ?_, ?_, ?_, ?_⟩⟩
        · rw [fmax, hm3txt]
        · omega
        · rw [← hm3txt]; exact fub
        · rw [epath, hw3]; simp
        · rw [List.getLast?_append, elast]; rfl
        · rw [List.count_append, ecrw]
          have : (["retrieve", "grade", "rewrite"] : List String).count "rewrite"
              = 1 := by decide
          rw [this]; omega
        · rw [List.count_append, List.count_append, ecre]
          have h4 : (["retrieve", "grade", "rewrite"] : List String).count "retrieve"
              = 1 := by decide
          have h5 : (["retrieve", "grade", "rewrite"] : List String).count "rewrite"
              = 1 := by decide
          rw [h4, h5]; omega

/-- Under badPorts the loop never terminates: retrieval always yields
no documents, grading judges them irrelevant, the routing function
keeps choosing rewrite because the retry count never reaches the
budget, and the failing rewrite completion never increments it. -/
lemma badPorts_loop (fuel : Nat) : ∀ (s : RunState),
    s.agent.retry_count = 0 → s.agent.max_retries = 2 →
    (runGraph badPorts fuel .retrieve s).2.1 = false := by
  induction fuel using Nat.strong_induction_on with
  | _ fuel ih =>
    rcases fuel with _ | _ | _ | n
    · intro s h0 h2
      rfl
    · intro s h0 h2
      simp [runGraph, stepNode]
    · intro s h0 h2
      rcases decideAfterGrading_cases
          (gradeNode badPorts (retrieveNode badPorts s)).agent with hdec | hdec
      · rw [runGraph_cont badPorts (0 + 1) .retrieve s (retrieveNode badPorts s)
            .grade_documents rfl,
          runGraph_cont badPorts 0 .grade_documents (retrieveNode badPorts s)
            (gradeNode badPorts (retrieveNode badPorts s)) .generate
            (stepNode_grade_generate badPorts (retrieveNode badPorts s) hdec)]
        rfl
      · rw [runGraph_cont badPorts (0 + 1) .retrieve s (retrieveNode badPorts s)
            .grade_documents rfl,
          runGraph_cont badPorts 0 .grade_documents (retrieveNode badPorts s)
            (gradeNode badPorts (retrieveNode badPorts s)) .rewrite_query
            (stepNode_grade_rewrite badPorts (retrieveNode badPorts s) hdec)]
        rfl
    · intro s h0 h2
      have hretry : (gradeNode badPorts (retrieveNode badPorts s)).agent.retry_count
          = s.agent.retry_count := rfl
      have hmax : (gradeNode badPorts (retrieveNode badPorts s)).agent.max_retries
          = s.agent.max_retries := rfl
      have hdec : decideAfterGrading
          (gradeNode badPorts (retrieveNode badPorts s)).agent = "rewrite" := by
        unfold decideAfterGrading
        rw [hretry, hmax, h0, h2]
        have hno : (gradeNode badPorts (retrieveNode badPorts s)).agent.relevance_decision
            = some "no" := rfl
        rw [hno]
        simp
      have hr3 : (rewriteNode badPorts (gradeNode badPorts (retrieveNode badPorts s))).agent.retry_count
          = s.agent.retry_count := rfl
      have hm3 : (rewriteNode badPorts (gradeNode badPorts (retrieveNode badPorts s))).agent.max_retries
          = s.agent.max_retries := rfl
      rw [show n + 3 = n + 3 from rfl,
        runGraph_loopSeg badPorts n s hdec]
      exact ih n (by omega)
        (rewriteNode badPorts (gradeNode badPorts (retrieveNode badPorts s)))
        (by rw [hr3, h0]) (by rw [hm3, h2])

/-- C1: the claim asserts termination within max_retries + 1 retrieval
attempts for every run. Counterexample: with a persistently failing
completion port and empty retrieval and max_retries = 1, after 20 graph
steps the run has not terminated and its workflow path already records
7 retrieval attempts, more than the claimed bound of 2. -/
theorem correction_loop_unbounded_on_rewrite_failure :
    (invokeGraph badPorts "q" 1 20).2.1 = false ∧
    2 < (invokeGraph badPorts "q" 1 20).1.agent.workflow_path.count "retrieve" ∧
    (invokeGraph badPorts "q" 1 20).1.agent.workflow_path.count "retrieve" = 7 := by
  refine ⟨by decide, by decide, by decide⟩

/-- C1 amended: provided every rewrite-step completion call succeeds,
a run of query terminates (within 3 * max_retries + 3 node
executions), the retry count in the returned result never exceeds
max_retries, the workflow path ends in "generate", contains at most
max_retries occurrences of "rewrite", and records at most
max_retries + 1 retrieval attempts. -/
theorem correction_loop_bounded_of_rewrite_success (P : Ports) (q : String)
    (m : Nat) (hok : rewriteAlwaysSucceeds P q) :
    ∃ f vs, invokeGraph P q m (3 * m + 3) = (f, true, vs) ∧
      f.agent.retry_count ≤ m ∧
      f.agent.workflow_path.getLast? = some "generate" ∧
      f.agent.workflow_path.count "rewrite" ≤ m ∧
      f.agent.workflow_path.count "retrieve" ≤ m + 1 ∧
      query P q m (3 * m + 3) = some (mkResult q f.agent) ∧
      (mkResult q f.agent).rewrites_used ≤ m := by
  obtain ⟨f, vs, e, fmax, fle, fub, extra, epath, elast, ecrw, ecre⟩ :=
    correction_loop_run P q hok m (initRunState q m) rfl
      (by simp [initRunState, initAgentState])
  have hinit_retry : (initRunState q m).agent.retry_count = 0 := rfl
  have hinit_max : (initRunState q m).agent.max_retries = m := rfl
  have hinit_path : (initRunState q m).agent.workflow_path = [] := rfl
  have hpath : f.agent.workflow_path = extra := by
    rw [epath, hinit_path]; rfl
  have hretry_le : f.agent.retry_count ≤ m := by
    rw [← hinit_max]; exact fub
  refine ⟨f, vs, e, hretry_le, ?_, ?_, ?_, ?_, ?_⟩
  · rw [hpath]; exact elast
  · rw [hpath, ecrw, hinit_retry]; omega
  · rw [hpath, ecre, ecrw, hinit_retry]; omega
  · unfold query
    rw [show invokeGraph P q m (3 * m + 3) = (f, true, vs) from e]
    simp
  · simpa [mkResult] using hretry_le

theorem correction_loop_bounded_witness :
    rewriteAlwaysSucceeds loopPortsOk "q" ∧
    (∃ f vs, invokeGraph loopPortsOk "q" 1 (3 * 1 + 3) = (f, true, vs) ∧
      f.agent.retry_count ≤ 1 ∧
      f.agent.workflow_path.getLast? = some "generate" ∧
      f.agent.workflow_path.count "rewrite" ≤ 1 ∧
      f.agent.workflow_path.count "retrieve" ≤ 1 + 1 ∧
      query loopPortsOk "q" 1 (3 * 1 + 3) = some (mkResult "q" f.agent) ∧
      (mkResult "q" f.agent).rewrites_used ≤ 1) :=
  ⟨fun _ => ⟨"sure", rfl⟩,
    correction_loop_bounded_of_rewrite_success loopPortsOk "q" 1
      (fun _ => ⟨"sure", rfl⟩)⟩

/-- C7: the claim asserts that query degrades to a best-effort result
for every input. Counterexample: with a persistently failing
completion port and empty retrieval at the default max_retries = 2,
the workflow never produces a result for any amount of fuel (the run
never reaches END, which at the Python level surfaces as a raised
recursion-limit error rather than a degraded answer). -/
theorem workflow_diverges_on_persistent_rewrite_failure :
    ¬ ∃ fuel, (query badPorts "q" 2 fuel).isSome := by
  rintro ⟨fuel, hf⟩
  have h := badPorts_loop fuel (initRunState "q" 2) rfl rfl
  simp only [query, invokeGraph] at hf
  rw [h] at hf
  simp at hf

/-- C7 amended: provided every rewrite-step completion call succeeds,
query returns a best-effort result for every question, retry budget
and behavior of the ports (all retrieval failures and all other
completion failures are absorbed inside the nodes); and on the state
store, absence is reported as an expected outcome, none from get_state
and false from delete_state, rather than an error. -/
theorem workflow_total_of_rewrite_success (P : Ports) (q : String) (m : Nat)
    (hok : rewriteAlwaysSucceeds P q) :
    (∃ res, query P q m (3 * m + 3) = some res) ∧
    (∀ (sm : StateManager) (id : String), sm.get_state id = none →
      sm.delete_state id = (false, sm)) := by
  constructor
  · obtain ⟨f, vs, e, _⟩ :=
      correction_loop_run P q hok m (initRunState q m) rfl
        (by simp [initRunState, initAgentState])
    refine ⟨mkResult q f.agent, ?_⟩
    unfold query
    rw [show invokeGraph P q m (3 * m + 3) = (f, true, vs) from e]
    simp
  · intro sm id h
    unfold StateManager.get_state at h
    simp [StateManager.delete_state, h]

theorem workflow_total_witness :
    rewriteAlwaysSucceeds loopPortsOk "q2" ∧
    ((∃ res, query loopPortsOk "q2" 2 (3 * 2 + 3) = some res) ∧
     (∀ (sm : StateManager) (id : String), sm.get_state id = none →
       sm.delete_state id = (false, sm))) :=
  ⟨fun _ => ⟨"sure", rfl⟩,
    workflow_total_of_rewrite_success loopPortsOk "q2" 2 (fun _ => ⟨"sure", rfl⟩)⟩

/-- A finished run has visited at least one node. -/
lemma runGraph_visited_ne_nil (P : Ports) (f : Nat) (n : GNode) (s : RunState)
    (h : (runGraph P f n s).2.1 = true) : (runGraph P f n s).2.2 ≠ [] := by
  cases f with
  | zero => simp [runGraph] at h
  | succ f =>
      cases hr : (stepNode P n s).2 <;> simp [runGraph, hr]

/-- C8: in query_stream, when the final workflow state holds at least
one document, the terminal complete event carries an answer produced by
a second, post-graph streaming completion call, equal to the stripped
concatenation of the emitted token fragments, replacing the generation
computed inside the graph; when the final state holds no documents, no
token event is emitted and the complete event carries the generation
produced inside the graph. -/
theorem query_stream_spec (P : Ports) (q : String) (m fuel : Nat)
    (hfin : (invokeGraph P q m fuel).2.1 = true) :
    ((invokeGraph P q m fuel).1.agent.documents = [] →
      queryStream P q m fuel =
        (invokeGraph P q m fuel).2.2.map (fun n =>
          StreamEvent.workflow (nodeName n) ("Running " ++ nodeName n ++ "...")) ++
        [completeEvent q (invokeGraph P q m fuel).1.agent] ∧
      (∀ c, StreamEvent.token c ∉ queryStream P q m fuel)) ∧
    ((invokeGraph P q m fuel).1.agent.documents ≠ [] →
      ∀ chunks,
        P.streamComplete (mkGenerationPrompt
            (questionOf (invokeGraph P q m fuel).1.agent)
            (invokeGraph P q m fuel).1.agent.documents) = .ok chunks →
        queryStream P q m fuel =
          (invokeGraph P q m fuel).2.2.map (fun n =>
            StreamEvent.workflow (nodeName n) ("Running " ++ nodeName n ++ "...")) ++
          chunks.map StreamEvent.token ++
          [completeEvent (questionOf (invokeGraph P q m fuel).1.agent)
            { (invokeGraph P q m fuel).1.agent with
                slm_prompt := some (mkGenerationPrompt
                  (questionOf (invokeGraph P q m fuel).1.agent)
                  (invokeGraph P q m fuel).1.agent.documents),
                generation := trimS (joinSep "" chunks) }]) := by
  have hv : (invokeGraph P q m fuel).2.2 ≠ [] :=
    runGraph_visited_ne_nil P fuel .retrieve (initRunState q m) hfin
  have hvE : (invokeGraph P q m fuel).2.2.isEmpty = false := by
    simpa [List.isEmpty_iff] using hv
  constructor
  · intro hd
    have he : (invokeGraph P q m fuel).1.agent.documents.isEmpty = true := by
      simp [List.isEmpty_iff, hd]
    have heq : queryStream P q m fuel =
        (invokeGraph P q m fuel).2.2.map (fun n =>
          StreamEvent.workflow (nodeName n) ("Running " ++ nodeName n ++ "...")) ++
        [completeEvent q (invokeGraph P q m fuel).1.agent] := by
      unfold queryStream
      simp [hvE, he]
    refine ⟨heq, ?_⟩
    intro c hc
    rw [heq] at hc
    rcases List.mem_append.mp hc with hmem | hmem
    · obtain ⟨nd, _, habs⟩ := List.mem_map.mp hmem
      exact StreamEvent.noConfusion habs
    · simp only [List.mem_singleton] at hmem
      exact StreamEvent.noConfusion (hmem.trans rfl)
  · intro hd chunks hck
    have he : (invokeGraph P q m fuel).1.agent.documents.isEmpty = false := by
      simpa [List.isEmpty_iff] using hd
    unfold queryStream
    simp [hvE, he, hck]

/-- Witness for C8: a one-document run whose streamed answer is the
stripped concatenation of the two emitted fragments. -/
theorem query_stream_spec_witness :
    ((invokeGraph streamPorts "what" 2 3).2.1 = true) ∧
    ((invokeGraph streamPorts "what" 2 3).1.agent.documents ≠ []) ∧
    (streamPorts.streamComplete (mkGenerationPrompt
        (questionOf (invokeGraph streamPorts "what" 2 3).1.agent)
        (invokeGraph streamPorts "what" 2 3).1.agent.documents)
      = .ok ["Hel", "lo "]) ∧
    queryStream streamPorts "what" 2 3 =
      (invokeGraph streamPorts "what" 2 3).2.2.map (fun n =>
        StreamEvent.workflow (nodeName n) ("Running " ++ nodeName n ++ "...")) ++
      (["Hel", "lo "] : List String).map StreamEvent.token ++
      [completeEvent (questionOf (invokeGraph streamPorts "what" 2 3).1.agent)
        { (invokeGraph streamPorts "what" 2 3).1.agent with
            slm_prompt := some (mkGenerationPrompt
              (questionOf (invokeGraph streamPorts "what" 2 3).1.agent)
              (invokeGraph streamPorts "what" 2 3).1.agent.documents),
            generation := trimS (joinSep "" ["Hel", "lo "]) }] :=
  ⟨by decide, by decide, rfl,
    (query_stream_spec streamPorts "what" 2 3 (by decide)).2 (by decide)
      ["Hel", "lo "] rfl⟩

end AIMentor
